import Mathlib

/-!
Shallow embedding of the multiplayer networking client (src/netClient.js).

Modelling conventions:
* JavaScript values that flow through the protocol are modelled by `JVal`,
  a JSON-like inductive with an extra undefined-value constructor for the result of
  reading an absent object property.  JS numbers are modelled as integers
  (every value the claims exercise is integral).
* The class instance `NetClient` is a record of its fields.  The listener
  registry is not part of the record: `emit` is modelled by returning the
  list of events an inbound frame or handler raises, in emission order.
* `JSON.parse` of an inbound text frame is modelled by its outcome, an
  `Option Obj`: `none` when parsing throws (the catch branch) and `some d`
  when it yields the object `d`.
* The wire effect of an outbound command is its return value: `some obj`
  when the guarded send submits the control object, `none` when the guard
  refuses (socket absent or not open) or nothing is sent.
-/

namespace CopilotMP

/-- JSON-like runtime values, with a constructor for the undefined value of a missing property. -/
inductive JVal where
  | undefined
  | null
  | bool (b : Bool)
  | num (n : Int)
  | str (s : String)
  | arr (xs : List JVal)
  | obj (kvs : List (String × JVal))

/-- A parsed JSON object, as an association list of its properties. -/
abbrev Obj := List (String × JVal)

/-- Property read `d.k`: the stored value, or the undefined value when absent. -/
def getField (d : Obj) (k : String) : JVal :=
  match d.find? (fun kv => kv.1 == k) with
  | some kv => kv.2
  | none => .undefined

/-- JS strict equality `===` restricted to the values the protocol compares:
primitives compare structurally; objects and arrays compare by reference in
JS, and the two operands here always come from different parsed frames, so
they are never the same reference and compare unequal. -/
def jsStrictEq : JVal → JVal → Bool
  | .undefined, .undefined => true
  | .null, .null => true
  | .bool a, .bool b => a == b
  | .num a, .num b => a == b
  | .str a, .str b => a == b
  | _, _ => false

/-- The transport handle: `noSocket` models `this.ws == null`, the other
constructors model the `readyState` of a live WebSocket. -/
inductive WsState where
  | noSocket
  | connecting
  | openReady
  | closing
  | closed

/-- The guard condition of `_send` and `sendBinary`:
`this.ws && this.ws.readyState === WebSocket.OPEN`. -/
def wsOpen : WsState → Bool
  | .openReady => true
  | _ => false

/-- A decoded binary package as delivered through the `binary` event:
a concatenated bit string or a byte array, depending on the mode. -/
inductive BinPkt where
  | bits (s : String)
  | bytes (bs : List Nat)

/-- The events `emit` can raise, with their arguments.  The last three are
events of the fuller client that the spec and the load harness use; see the
spec-modelled definitions below. -/
inductive Event where
  | connected
  | disconnected
  | assignedId (playerId : JVal)
  | roomCreated (roomId yourId : JVal)
  | roomJoined (roomId yourId ownerId maxClients : JVal)
  | makeHost (oldHostId : JVal)
  | reassignedHost (newHostId oldHostId : JVal)
  | playerLeft (thatPlayerId : JVal)
  | relay (fromId payload : JVal)
  | tellOwner (fromId payload : JVal)
  | tellPlayer (fromId payload : JVal)
  | roomList (rooms : JVal)
  | binary (pkg : BinPkt)
  | error (message : JVal)
  | roomUpdated (metadata : JVal)
  | roomTagAdded (tag : JVal)
  | roomTagRemoved (tag : JVal)

/-- The fields of the `NetClient` class (src/netClient.js, constructor). -/
structure NetClient where
  url : String
  gameName : String
  ws : WsState
  playerId : JVal
  roomId : JVal
  ownerId : JVal
  isHost : Bool
  binaryMode : String

/-- `new NetClient(url, gameName)`: the constructor defaults. -/
def initNetClient (url : String) (gameName : String) : NetClient :=
  { url := url
    gameName := gameName
    ws := .noSocket
    playerId := .null
    roomId := .null
    ownerId := .null
    isHost := false
    binaryMode := "bitstring" }

/-- `_send(obj)`: submits the control object iff the socket exists and is
open; otherwise returns without sending. -/
def _send (ws : WsState) (obj : Obj) : Option Obj :=
  if wsOpen ws then some obj else none

/-- `connect()`: allocates a fresh socket (readyState CONNECTING) and
installs the handlers modelled by `onOpen`, `onClose`, `handleMessage`. -/
def connect (c : NetClient) : NetClient :=
  { c with ws := .connecting }

/-- The `onopen` handler installed by `connect`: emits `connected` only. -/
def onOpen (c : NetClient) : NetClient × List Event :=
  ({ c with ws := .openReady }, [.connected])

/-- The `onclose` handler installed by `connect`: emits `disconnected` only;
no session field is touched. -/
def onClose (c : NetClient) : NetClient × List Event :=
  (c, [.disconnected])

/-- `disconnect()`: closes the socket if present and nulls the handle. -/
def disconnect (c : NetClient) : NetClient :=
  match c.ws with
  | .noSocket => c
  | _ => { c with ws := .noSocket }

/-- `createRoom(tags, maxClients, isPrivate)`: non-array tags are replaced
by an empty array, the game tag is appended, `"private"` is appended when
requested, and the request is submitted through the `_send` guard. -/
def createRoom (c : NetClient) (tags : JVal) (maxClients : JVal)
    (isPrivate : Bool) : Option Obj :=
  let tagList := match tags with | .arr xs => xs | _ => []
  let tagList := tagList ++ [JVal.str ("game:" ++ c.gameName)]
  let tagList := if isPrivate then tagList ++ [JVal.str "private"] else tagList
  _send c.ws [("type", JVal.str "createRoom"), ("tags", JVal.arr tagList),
    ("maxClients", maxClients)]

/-- `joinRoom(roomId)`. -/
def joinRoom (c : NetClient) (roomId : JVal) : Option Obj :=
  _send c.ws [("type", JVal.str "joinRoom"), ("roomId", roomId)]

/-- `leaveRoom()`: submits the leave request (subject to the `_send` guard)
and sets `this.roomId = null`.  No other field is assigned. -/
def leaveRoom (c : NetClient) : NetClient × Option Obj :=
  let out := _send c.ws [("type", JVal.str "leaveRoom")]
  ({ c with roomId := .null }, out)

/-- `listRooms(tags)`: same tag normalisation as `createRoom`. -/
def listRooms (c : NetClient) (tags : JVal) : Option Obj :=
  let tagList := match tags with | .arr xs => xs | _ => []
  let tagList := tagList ++ [JVal.str ("game:" ++ c.gameName)]
  _send c.ws [("type", JVal.str "listRooms"), ("tags", JVal.arr tagList)]

/-- `sendRelay(payload)`. -/
def sendRelay (c : NetClient) (payload : JVal) : Option Obj :=
  _send c.ws [("type", JVal.str "relay"), ("payload", payload)]

/-- `tellOwner(payload)`. -/
def tellOwner (c : NetClient) (payload : JVal) : Option Obj :=
  _send c.ws [("type", JVal.str "tellOwner"), ("payload", payload)]

/-- `tellPlayer(playerId, payload)`. -/
def tellPlayer (c : NetClient) (playerId : JVal) (payload : JVal) : Option Obj :=
  _send c.ws [("type", JVal.str "tellPlayer"), ("playerId", playerId),
    ("payload", payload)]

/-- Characters the JS regexp `.` does not match (line terminators). -/
def isNl (ch : Char) : Bool :=
  ch = '\n' || ch = '\r' || ch = '\u2028' || ch = '\u2029'

/-- The match list of `data.match(/.{1,8}/g) || []`: maximal runs of one to
eight consecutive non-terminator characters, scanning left to right; a line
terminator never starts or enters a chunk. -/
def chunk8 : List Char → List (List Char)
  | [] => []
  | ch :: rest =>
    if isNl ch then chunk8 rest
    else
      (ch :: (rest.takeWhile (fun c => !isNl c)).take 7) ::
        chunk8 (rest.drop ((rest.takeWhile (fun c => !isNl c)).take 7).length)
termination_by cs => cs.length
decreasing_by
  all_goals simp only [List.length_cons, List.length_drop]
  all_goals omega

/-- Whitespace skipped by `parseInt` (the line terminators among them cannot
occur inside a chunk produced by `chunk8`). -/
def isJsWs (ch : Char) : Bool :=
  ch = ' ' || ch = '\t' || ch = '\x0b' || ch = '\x0c' || ch = '\xa0'

/-- Value of a string of binary digits, most significant first. -/
def binDigitsVal (ds : List Char) : Nat :=
  ds.foldl (fun acc ch => 2 * acc + (if ch = '1' then 1 else 0)) 0

/-- `parseInt(cs, 2)`: skip leading whitespace, read an optional sign, then
the longest prefix of radix-2 digits; `none` models NaN (no digit read). -/
def parseIntBin (cs : List Char) : Option Int :=
  let cs := cs.dropWhile isJsWs
  let sgnCs : Int × List Char :=
    match cs with
    | '-' :: rest => (-1, rest)
    | '+' :: rest => (1, rest)
    | _ => (1, cs)
  let ds := sgnCs.2.takeWhile (fun ch => ch = '0' || ch = '1')
  if ds.isEmpty then none
  else some (sgnCs.1 * (binDigitsVal ds : Int))

/-- `ToUint8` as applied by a `Uint8Array` store on an integral JS number:
NaN becomes 0, otherwise the value modulo 2^8. -/
def toUint8 (v : Option Int) : Nat :=
  match v with
  | none => 0
  | some i => (i % 256).toNat

/-- The runtime type of the argument of `sendBinary`: a string, an array of
JS numbers, or anything else (null, a number, an object, ...). -/
inductive BinInput where
  | str (s : String)
  | arr (ns : List Int)
  | other

/-- `sendBinary(data)`: refuses when the socket is absent or not open; a
string is chunked and each chunk parsed as radix-2; an array is packed into
a `Uint8Array`; any other value leaves `buffer` undefined and nothing is
sent.  Returns the byte sequence of the frame put on the wire, if any. -/
def sendBinary (c : NetClient) (data : BinInput) : Option (List Nat) :=
  if wsOpen c.ws = false then none
  else
    match data with
    | .str s => some ((chunk8 s.data).map (fun g => toUint8 (parseIntBin g)))
    | .arr ns => some (ns.map (fun i => toUint8 (some i)))
    | .other => none

/-- `b.toString(2)`: binary digits of a byte value. -/
def jsToString2 (n : Nat) : String :=
  String.mk (Nat.toDigits 2 n)

/-- `.padStart(8, "0")`. -/
def padStart8 (s : String) : String :=
  String.mk (List.replicate (8 - s.length) '0') ++ s

/-- Inbound bitstring rendering: each byte as an 8-character zero-padded
binary string, concatenated in receive order. -/
def bitstringOfBytes (bs : List Nat) : String :=
  String.join (bs.map (fun b => padStart8 (jsToString2 b)))

/-- The binary branch of `_handleMessage`: decodes the received bytes
according to `binaryMode` and emits `binary`; any other mode value emits
nothing; the session state is never touched. -/
def handleBinaryFrame (c : NetClient) (bytes : List Nat) : NetClient × List Event :=
  if c.binaryMode == "bitstring" then
    (c, [.binary (.bits (bitstringOfBytes bytes))])
  else if c.binaryMode == "arraybytes" then
    (c, [.binary (.bytes bytes)])
  else (c, [])

/-- The switch of `_handleMessage` on a parsed control object: each
recognised kind updates the session fields exactly as the source assigns
them and emits the corresponding event; every other kind falls through the
switch with no state change and no event. -/
def handleParsed (c : NetClient) (d : Obj) : NetClient × List Event :=
  match getField d "type" with
  | .str t =>
    if t == "assignId" then
      ({ c with playerId := getField d "playerId" },
        [.assignedId (getField d "playerId")])
    else if t == "roomCreated" then
      ({ c with roomId := getField d "roomId", ownerId := getField d "playerId" },
        [.roomCreated (getField d "roomId") (getField d "playerId")])
    else if t == "roomJoined" then
      ({ c with isHost := false, roomId := getField d "roomId",
                ownerId := getField d "ownerId" },
        [.roomJoined (getField d "roomId") (getField d "playerId")
          (getField d "ownerId") (getField d "maxClients")])
    else if t == "makeHost" then
      ({ c with isHost := true, ownerId := c.playerId },
        [.makeHost (getField d "oldHostId")])
    else if t == "reassignedHost" then
      ({ c with ownerId := getField d "newHostId",
                isHost := jsStrictEq c.playerId (getField d "newHostId") },
        [.reassignedHost (getField d "newHostId") (getField d "oldHostId")])
    else if t == "playerLeft" then (c, [.playerLeft (getField d "playerId")])
    else if t == "relay" then (c, [.relay (getField d "from") (getField d "payload")])
    else if t == "tellOwner" then
      (c, [.tellOwner (getField d "from") (getField d "payload")])
    else if t == "tellPlayer" then
      (c, [.tellPlayer (getField d "from") (getField d "payload")])
    else if t == "roomList" then (c, [.roomList (getField d "rooms")])
    else (c, [])
  | _ => (c, [])

/-- The text branch of `_handleMessage`: `JSON.parse` inside try/catch,
modelled by its outcome; a parse failure returns with no effect. -/
def handleText (c : NetClient) (parsed : Option Obj) : NetClient × List Event :=
  match parsed with
  | none => (c, [])
  | some d => handleParsed c d

/-- An inbound transport frame: binary data or a text frame, the latter
represented by its parse outcome. -/
inductive Frame where
  | bin (bytes : List Nat)
  | text (parsed : Option Obj)

/-- `_handleMessage(evt)`: binary frames go to the codec branch, text
frames to the JSON branch. -/
def handleMessage (c : NetClient) (f : Frame) : NetClient × List Event :=
  match f with
  | .bin bytes => handleBinaryFrame c bytes
  | .text parsed => handleText c parsed

/-- Modelled from the spec: `updateMeta(partialMetadata)` is absent from
src/netClient.js although the load harness calls it; per the spec it
submits a metadata mutation request over the control channel. -/
def updateMeta (c : NetClient) (partialMetadata : JVal) : Option Obj :=
  _send c.ws [("type", JVal.str "updateMeta"), ("metadata", partialMetadata)]

/-- Modelled from the spec: `addTag(tag)` is absent from src/netClient.js
although the load harness calls it; it submits a tag addition request. -/
def addTag (c : NetClient) (tag : JVal) : Option Obj :=
  _send c.ws [("type", JVal.str "addTag"), ("tag", tag)]

/-- Modelled from the spec: `removeTag(tag)` is absent from
src/netClient.js although the load harness calls it; it submits a tag
removal request. -/
def removeTag (c : NetClient) (tag : JVal) : Option Obj :=
  _send c.ws [("type", JVal.str "removeTag"), ("tag", tag)]

/-- Modelled from the spec: inbound handling of the `roomUpdated`,
`roomTagAdded` and `roomTagRemoved` control kinds, which the switch in
src/netClient.js lacks although the load harness subscribes to the
corresponding events; per the spec each raises its event without touching
the session state, and every other kind behaves as in the source. -/
def handleMetaMsg (c : NetClient) (d : Obj) : NetClient × List Event :=
  match getField d "type" with
  | .str "roomUpdated" => (c, [.roomUpdated (getField d "metadata")])
  | .str "roomTagAdded" => (c, [.roomTagAdded (getField d "tag")])
  | .str "roomTagRemoved" => (c, [.roomTagRemoved (getField d "tag")])
  | _ => handleParsed c d

/-- The server-to-client control kinds the spec recognises. -/
def recognizedKinds : List String :=
  ["assignId", "roomCreated", "roomJoined", "makeHost", "reassignedHost",
   "playerLeft", "relay", "tellOwner", "tellPlayer", "roomList",
   "roomUpdated", "roomTagAdded", "roomTagRemoved", "error"]

/-- Whether the type discriminator of a parsed frame is the string `k`,
exactly the comparison a switch case performs. -/
def typeIs (d : Obj) (k : String) : Bool :=
  match getField d "type" with
  | .str s => s == k
  | _ => false

/-- The host flag invariant claimed by the spec, as a predicate on the
client state: `isHost == (ownerId == playerId)` (the identities the
protocol compares are strings, where loose and strict equality agree). -/
def hostInvariant (c : NetClient) : Prop :=
  c.isHost = jsStrictEq c.ownerId c.playerId

/-- A concrete client that holds identity "A", sits in room "r1" as its
owner with the host flag set, and has an open socket. -/
def inRoomHost : NetClient :=
  { url := "ws://s", gameName := "g", ws := .openReady,
    playerId := .str "A", roomId := .str "r1", ownerId := .str "A",
    isHost := true, binaryMode := "bitstring" }

/-- A concrete client whose socket is open but which has not yet received
an identity assignment. -/
def unassignedOpenClient : NetClient :=
  { initNetClient "ws://s" "defaultGame" with ws := .openReady }

/-- The client state after a freshly connected client processes the
control message assignId with playerId "A". -/
def afterAssign : NetClient :=
  (handleParsed unassignedOpenClient
    [("type", JVal.str "assignId"), ("playerId", JVal.str "A")]).1

/-- The state of `afterAssign` after it further processes roomCreated with
roomId "r1" and playerId "A" (the identity of this very client). -/
def afterCreate : NetClient :=
  (handleParsed afterAssign
    [("type", JVal.str "roomCreated"), ("roomId", JVal.str "r1"),
     ("playerId", JVal.str "A")]).1

/-- A concrete open client configured in byte-array binary mode. -/
def arrClient : NetClient :=
  { inRoomHost with binaryMode := "arraybytes" }

/-- C1: the host flag invariant `isHost == (ownerId == playerId)` fails on
the code.  After a fresh client processes assignId with "A" and then
roomCreated with roomId "r1" and playerId "A", the roomCreated case stores
the room id and the owner id but never assigns `isHost`, so the state has
`ownerId == playerId` (both "A") while `isHost` is still false. -/
theorem roomCreated_leaves_isHost_false :
    afterCreate.playerId = JVal.str "A" ∧ afterCreate.ownerId = JVal.str "A" ∧
    afterCreate.isHost = false ∧ ¬ hostInvariant afterCreate :=
  ⟨rfl, rfl, rfl, by unfold hostInvariant; decide⟩

/-- C2: a transport close does not reset the session.  The onclose handler
installed by `connect` only emits `disconnected`; evaluated at a client in
a room with the host flag set, it returns the state unchanged, with
playerId, roomId, ownerId and isHost retaining their stale values. -/
theorem close_retains_session_fields :
    onClose inRoomHost = (inRoomHost, [Event.disconnected]) ∧
    inRoomHost.playerId = JVal.str "A" ∧ inRoomHost.roomId = JVal.str "r1" ∧
    inRoomHost.ownerId = JVal.str "A" ∧ inRoomHost.isHost = true :=
  ⟨rfl, rfl, rfl, rfl, rfl⟩

/-- C3: an inbound control frame of kind error leaves the session state
unchanged but raises no event at all: the switch in `_handleMessage` has no
error case, so the frame falls through to the silent default. -/
theorem error_frame_dropped :
    handleParsed inRoomHost
      [("type", JVal.str "error"), ("message", JVal.str "room is closed")]
      = (inRoomHost, []) :=
  rfl

/-- C5: `leaveRoom()` submits the leave request and clears only `roomId`;
evaluated at an in-room host, the resulting state still carries
`ownerId = "A"` and `isHost = true`, against the claim that both are
reset. -/
theorem leaveRoom_clears_only_roomId :
    (leaveRoom inRoomHost).1.roomId = JVal.null ∧
    (leaveRoom inRoomHost).1.ownerId = JVal.str "A" ∧
    (leaveRoom inRoomHost).1.isHost = true ∧
    (leaveRoom inRoomHost).2 = some [("type", JVal.str "leaveRoom")] :=
  ⟨rfl, rfl, rfl, rfl⟩

/-- C9: each of the five notification kinds playerLeft, relay, tellOwner,
tellPlayer and roomList leaves every session field unchanged and raises
exactly the corresponding event with the arguments carried by the
message. -/
theorem notification_frames_preserve_state (c : NetClient)
    (pid fr pl rooms : JVal) :
    handleParsed c [("type", JVal.str "playerLeft"), ("playerId", pid)]
      = (c, [.playerLeft pid]) ∧
    handleParsed c [("type", JVal.str "relay"), ("from", fr), ("payload", pl)]
      = (c, [.relay fr pl]) ∧
    handleParsed c [("type", JVal.str "tellOwner"), ("from", fr), ("payload", pl)]
      = (c, [.tellOwner fr pl]) ∧
    handleParsed c [("type", JVal.str "tellPlayer"), ("from", fr), ("payload", pl)]
      = (c, [.tellPlayer fr pl]) ∧
    handleParsed c [("type", JVal.str "roomList"), ("rooms", rooms)]
      = (c, [.roomList rooms]) :=
  ⟨rfl, rfl, rfl, rfl, rfl⟩

/-- C10: `sendBinary` called with a value that is neither a string nor an
array sends nothing and returns normally, for every client state, open
connection included: the body leaves `buffer` undefined and the final
guard skips the send. -/
theorem sendBinary_other_sends_nothing (c : NetClient) :
    sendBinary c .other = none := by
  unfold sendBinary
  split
  · rfl
  · rfl

/-- C6 counterexample: the claim that commands are dropped before identity
assignment is false.  A client whose socket is open but whose `playerId`
is still null has `joinRoom` submit the frame: `_send` only checks the
socket, never the identity. -/
theorem commands_sent_before_assignment :
    unassignedOpenClient.playerId = JVal.null ∧
    joinRoom unassignedOpenClient (JVal.str "room1")
      = some [("type", JVal.str "joinRoom"), ("roomId", JVal.str "room1")] :=
  ⟨rfl, rfl⟩

/-- C6 amended: when the transport is not open (no socket or a socket in a
non-open readyState), every Room Command submits nothing on the transport
and raises no error or event. -/
theorem commands_dropped_when_not_open (c : NetClient)
    (tags mc rid tgt pl : JVal) (ip : Bool) (bd : BinInput)
    (h : wsOpen c.ws = false) :
    createRoom c tags mc ip = none ∧ joinRoom c rid = none ∧
    (leaveRoom c).2 = none ∧ listRooms c tags = none ∧
    sendRelay c pl = none ∧ tellOwner c pl = none ∧
    tellPlayer c tgt pl = none ∧ sendBinary c bd = none := by
  refine ⟨?_, ?_, ?_, ?_, ?_, ?_, ?_, ?_⟩ <;>
    simp [createRoom, joinRoom, leaveRoom, listRooms, sendRelay, tellOwner,
      tellPlayer, sendBinary, _send, h]

/-- Witness for C6 amended: a freshly constructed client has no socket, and
every command returns without submitting anything. -/
theorem commands_dropped_when_not_open_witness :
    wsOpen (initNetClient "ws://s" "g").ws = false ∧
    (createRoom (initNetClient "ws://s" "g") JVal.null JVal.null false = none ∧
     joinRoom (initNetClient "ws://s" "g") JVal.null = none ∧
     (leaveRoom (initNetClient "ws://s" "g")).2 = none ∧
     listRooms (initNetClient "ws://s" "g") JVal.null = none ∧
     sendRelay (initNetClient "ws://s" "g") JVal.null = none ∧
     tellOwner (initNetClient "ws://s" "g") JVal.null = none ∧
     tellPlayer (initNetClient "ws://s" "g") JVal.null JVal.null = none ∧
     sendBinary (initNetClient "ws://s" "g") BinInput.other = none) :=
  ⟨rfl, commands_dropped_when_not_open (initNetClient "ws://s" "g")
    JVal.null JVal.null JVal.null JVal.null JVal.null false BinInput.other rfl⟩

/-- C4: the metadata and tag mutation commands submit the corresponding
control request whenever the socket is open, and the inbound roomUpdated,
roomTagAdded and roomTagRemoved kinds raise exactly the corresponding
event without touching the session state (operations and inbound kinds
modelled from the spec, see the definitions). -/
theorem meta_tag_commands (c : NetClient) (meta tag : JVal)
    (h : wsOpen c.ws = true) :
    updateMeta c meta
      = some [("type", JVal.str "updateMeta"), ("metadata", meta)] ∧
    addTag c tag = some [("type", JVal.str "addTag"), ("tag", tag)] ∧
    removeTag c tag = some [("type", JVal.str "removeTag"), ("tag", tag)] ∧
    handleMetaMsg c [("type", JVal.str "roomUpdated"), ("metadata", meta)]
      = (c, [.roomUpdated meta]) ∧
    handleMetaMsg c [("type", JVal.str "roomTagAdded"), ("tag", tag)]
      = (c, [.roomTagAdded tag]) ∧
    handleMetaMsg c [("type", JVal.str "roomTagRemoved"), ("tag", tag)]
      = (c, [.roomTagRemoved tag]) := by
  refine ⟨?_, ?_, ?_, rfl, rfl, rfl⟩ <;>
    simp [updateMeta, addTag, removeTag, _send, h]

/-- Witness for C4: the host of room "r1" has an open socket; its metadata
update and tag mutations are submitted and the inbound notifications raise
the three events. -/
theorem meta_tag_commands_witness :
    wsOpen inRoomHost.ws = true ∧
    (updateMeta inRoomHost (JVal.str "m")
      = some [("type", JVal.str "updateMeta"), ("metadata", JVal.str "m")] ∧
     addTag inRoomHost (JVal.str "closed")
      = some [("type", JVal.str "addTag"), ("tag", JVal.str "closed")] ∧
     removeTag inRoomHost (JVal.str "closed")
      = some [("type", JVal.str "removeTag"), ("tag", JVal.str "closed")] ∧
     handleMetaMsg inRoomHost
        [("type", JVal.str "roomUpdated"), ("metadata", JVal.str "m")]
      = (inRoomHost, [.roomUpdated (JVal.str "m")]) ∧
     handleMetaMsg inRoomHost
        [("type", JVal.str "roomTagAdded"), ("tag", JVal.str "closed")]
      = (inRoomHost, [.roomTagAdded (JVal.str "closed")]) ∧
     handleMetaMsg inRoomHost
        [("type", JVal.str "roomTagRemoved"), ("tag", JVal.str "closed")]
      = (inRoomHost, [.roomTagRemoved (JVal.str "closed")])) :=
  ⟨rfl, meta_tag_commands inRoomHost (JVal.str "m") (JVal.str "closed") rfl⟩

/-- Storing an integral value below 256 into a Uint8Array keeps it. -/
theorem toUint8_ofNat (n : Nat) (h : n < 256) : toUint8 (some (Int.ofNat n)) = n := by
  have h2 : Int.ofNat n % 256 = Int.ofNat n := by
    rw [Int.ofNat_eq_coe]
    apply Int.emod_eq_of_lt <;> omega
  show ((Int.ofNat n) % 256).toNat = n
  rw [h2]
  exact Int.toNat_ofNat n

/-- Packing a list of byte values through Uint8Array stores is the
identity. -/
theorem map_toUint8_id (l : List Nat) (h : ∀ b ∈ l, b < 256) :
    l.map (fun n => toUint8 (some (Int.ofNat n))) = l := by
  induction l with
  | nil => rfl
  | cons a t ih =>
    have ha : toUint8 (some (Int.ofNat a)) = a := toUint8_ofNat a (h a (by simp))
    simp only [List.map_cons, ha, List.cons.injEq]
    exact ⟨trivial, ih (fun b hb => h b (by simp [hb]))⟩

/-- C7: byte-array round trip.  For a sender with an open socket and any
sequence of integers in [0,255], `sendBinary` puts exactly that byte
sequence on the wire, and a receiver in byte-array mode decodes the frame
back to the identical sequence through the `binary` event, its session
state untouched. -/
theorem byte_array_roundtrip (sender receiver : NetClient) (l : List Nat)
    (hopen : wsOpen sender.ws = true)
    (_hsm : sender.binaryMode = "arraybytes")
    (hrm : receiver.binaryMode = "arraybytes")
    (hb : ∀ b ∈ l, b < 256) :
    sendBinary sender (.arr (l.map Int.ofNat)) = some l ∧
    handleBinaryFrame receiver l = (receiver, [.binary (.bytes l)]) := by
  constructor
  · simp only [sendBinary, hopen]
    rw [if_neg (by simp)]
    show some ((l.map Int.ofNat).map fun i => toUint8 (some i)) = some l
    rw [List.map_map]
    show some (l.map fun n => toUint8 (some (Int.ofNat n))) = some l
    rw [map_toUint8_id l hb]
  · simp [handleBinaryFrame, hrm]

/-- Witness for C7: the sequence [1,2,3,4,5] survives the round trip at a
concrete open client in byte-array mode. -/
theorem byte_array_roundtrip_witness :
    (∀ b ∈ [1, 2, 3, 4, 5], b < 256) ∧
    sendBinary arrClient (.arr ([1, 2, 3, 4, 5].map Int.ofNat))
      = some [1, 2, 3, 4, 5] ∧
    handleBinaryFrame arrClient [1, 2, 3, 4, 5]
      = (arrClient, [.binary (.bytes [1, 2, 3, 4, 5])]) :=
  ⟨by decide,
   (byte_array_roundtrip arrClient arrClient [1, 2, 3, 4, 5]
      rfl rfl rfl (by decide)).1,
   (byte_array_roundtrip arrClient arrClient [1, 2, 3, 4, 5]
      rfl rfl rfl (by decide)).2⟩

/-- C8: an inbound text frame that does not parse as JSON, or whose type
discriminator is not one of the recognised server-to-client kinds, is
dropped: no event is raised and every session field is unchanged. -/
theorem unrecognized_frames_dropped (c : NetClient) (parsed : Option Obj)
    (h : parsed = none ∨
      ∃ d, parsed = some d ∧ ∀ k ∈ recognizedKinds, typeIs d k = false) :
    handleText c parsed = (c, []) := by
  rcases h with h | ⟨d, hd, hk⟩
  · rw [h]; rfl
  · rw [hd]
    show handleParsed c d = (c, [])
    have h01 := hk "assignId" (by simp [recognizedKinds])
    have h02 := hk "roomCreated" (by simp [recognizedKinds])
    have h03 := hk "roomJoined" (by simp [recognizedKinds])
    have h04 := hk "makeHost" (by simp [recognizedKinds])
    have h05 := hk "reassignedHost" (by simp [recognizedKinds])
    have h06 := hk "playerLeft" (by simp [recognizedKinds])
    have h07 := hk "relay" (by simp [recognizedKinds])
    have h08 := hk "tellOwner" (by simp [recognizedKinds])
    have h09 := hk "tellPlayer" (by simp [recognizedKinds])
    have h10 := hk "roomList" (by simp [recognizedKinds])
    rcases hT : getField d "type" with _ | _ | b | n | s | xs | kvs <;>
      simp only [handleParsed, hT]
    have e01 : (s == "assignId") = false := by simpa [typeIs, hT] using h01
    have e02 : (s == "roomCreated") = false := by simpa [typeIs, hT] using h02
    have e03 : (s == "roomJoined") = false := by simpa [typeIs, hT] using h03
    have e04 : (s == "makeHost") = false := by simpa [typeIs, hT] using h04
    have e05 : (s == "reassignedHost") = false := by simpa [typeIs, hT] using h05
    have e06 : (s == "playerLeft") = false := by simpa [typeIs, hT] using h06
    have e07 : (s == "relay") = false := by simpa [typeIs, hT] using h07
    have e08 : (s == "tellOwner") = false := by simpa [typeIs, hT] using h08
    have e09 : (s == "tellPlayer") = false := by simpa [typeIs, hT] using h09
    have e10 : (s == "roomList") = false := by simpa [typeIs, hT] using h10
    simp [e01, e02, e03, e04, e05, e06, e07, e08, e09, e10]

/-- Witness for C8: a frame with the unrecognised kind "bogus" is dropped
without any event or state change. -/
theorem unrecognized_frames_dropped_witness :
    (some [("type", JVal.str "bogus")] = (none : Option Obj) ∨
      ∃ d, some [("type", JVal.str "bogus")] = some d ∧
        ∀ k ∈ recognizedKinds, typeIs d k = false) ∧
    handleText inRoomHost (some [("type", JVal.str "bogus")])
      = (inRoomHost, []) :=
  ⟨Or.inr ⟨[("type", JVal.str "bogus")], rfl, by decide⟩,
   unrecognized_frames_dropped inRoomHost (some [("type", JVal.str "bogus")])
     (Or.inr ⟨[("type", JVal.str "bogus")], rfl, by decide⟩)⟩

end CopilotMP
